import Mathlib

/-!
Verification of the rustymode concurrent pipeline (src/main.rs) against its
natural-language specification.

The five stage loops of `run` (grabber, detector, writer, streamer, messenger)
are shallowly embedded as executable Lean functions.  External capabilities
(camera capture, motion analysis, video encoding, JPEG encoding, slack
transport, wall-clock time, channel peers) are modelled as per-iteration
script inputs: each iteration record carries the value the external world
returns at that point (grab result, analysis result, current time, whether a
channel send succeeds, whether a socket write succeeds, the cancellation flag
observed at the check point).  Time is modelled in milliseconds as `Nat`;
`Duration::from_secs(n)` becomes `secs n`.
-/

namespace Rustymode

/-- Wall-clock durations / instants, in milliseconds. -/
def secs (n : Nat) : Nat := 1000 * n

/-- `Duration::from_millis(100)`, the streamer idle-loop sleep. -/
def pollIntervalMs : Nat := 100

/-- Byte strings on the wire are modelled as lists of characters. -/
abbrev Bytes := List Char

/-- A captured frame: an identity tag plus the byte string the external JPEG
codec (`imgcodecs::imencode`, a pure function of the frame per the spec)
produces for it.  The source `Frame` carries an image matrix and a datetime;
neither is inspected by the pipeline logic, so the model keeps an opaque id. -/
structure Frame where
  id : Nat
  jpeg : Bytes
deriving DecidableEq, Repr

/-- The process-wide streaming-active flag (`streaming_enabled`). -/
structure Shared where
  flag : Bool
deriving DecidableEq, Repr

/-! ## Capture stage (`grabber_handle`, main.rs lines 227-254) -/

/-- One iteration of the grabber loop, as seen from the grabber thread:
`term` is the cancellation value loaded at the loop guard, `grabResult`
is what `grabber.grab()` returns (`none` = error), `flag` is the value the
concurrent streamer thread has left in the shared streaming-active cell at
the moment of the load on line 246 (the run driver installs it into
`Shared`; `grabberStep` itself reads it from `Shared`), `rawOpen` /
`streamOpen` say whether the respective channel send succeeds. -/
structure GrabIter where
  term : Bool
  grabResult : Option Frame
  flag : Bool
  rawOpen : Bool
  streamOpen : Bool
deriving DecidableEq, Repr

/-- What one grabber iteration did: frame delivered to the detection channel,
frame delivered to the streaming channel, whether the loop body hit a
`break`, whether a grab warning was printed. -/
structure GrabOut where
  rawSent : Option Frame
  streamSent : Option Frame
  broke : Bool
  warned : Bool
deriving DecidableEq, Repr

/-- The grabber loop body (after the guard), main.rs lines 231-251:
grab; on error warn and continue; send to `raw_tx`, `break` on failure;
if the streaming-active flag is loaded as true, send the clone to
`streamer_tx` and `break` on failure.  The flag is read from `sh` and is
never written. -/
def grabberStep (sh : Shared) (i : GrabIter) : Shared × GrabOut :=
  match i.grabResult with
  | none => (sh, ⟨none, none, false, true⟩)
  | some f =>
    if i.rawOpen then
      if sh.flag then
        if i.streamOpen then (sh, ⟨some f, some f, false, false⟩)
        else (sh, ⟨some f, none, true, false⟩)
      else (sh, ⟨some f, none, false, false⟩)
    else (sh, ⟨none, none, true, false⟩)

/-- The grabber loop over a script of iterations; returns the sequence of
frames delivered to the detection channel and to the streaming channel.
The guard `!term_grabber.load()` stops the loop; a `break` from the body
ends it immediately. -/
def grabberRun : List GrabIter → List Frame × List Frame
  | [] => ([], [])
  | i :: rest =>
    if i.term then ([], [])
    else
      let o := (grabberStep ⟨i.flag⟩ i).2
      if o.broke then (o.rawSent.toList, o.streamSent.toList)
      else
        let r := grabberRun rest
        (o.rawSent.toList ++ r.1, o.streamSent.toList ++ r.2)

/-! ## Detection stage (`detector_handle`, main.rs lines 261-304) -/

/-- Result of `detector.detect_motion(frame)`: `Ok(None)`, `Ok(Some(frame))`
or `Err(_)` (end of input). -/
inductive DetectRes where
  | noMotion
  | motion (f : Frame)
  | terminal
deriving DecidableEq, Repr

/-- One iteration of the detector loop: cancellation value observed at the
top-of-iteration check (line 264), the analysis result for the received
frame, the current wall-clock value (`SystemTime::now`), and whether the
recording-channel (`proc_tx`) and alerting-channel (`dtr_tx`) sends
succeed. -/
structure DetIter where
  term : Bool
  res : DetectRes
  time : Nat
  procOpen : Bool
  dtrOpen : Bool
deriving DecidableEq, Repr

/-- Detector thread state: its captured copy of `message_last_sent`
(warning-suppression timestamp), frames delivered to the recording channel,
count of motion events delivered to the alerting channel, and the times at
which an alerting-send-failure warning was printed. -/
structure DetState where
  lastWarn : Nat
  sentProc : List Frame
  alerts : Nat
  warnTimes : List Nat
deriving DecidableEq, Repr

/-- Initial detector state: the captured `message_last_sent` copy starts at
`Duration::from_secs(0)` (line 260). -/
def detInit : DetState := ⟨0, [], 0, []⟩

/-- The motion branch of the detector loop body (main.rs lines 271-295):
send the frame to `proc_tx` (warn on failure, continue); send `true` to
`dtr_tx`; on failure warn only if more than 10 seconds have elapsed since
`message_last_sent`, updating it when the warning is printed. -/
def detectorBody (st : DetState) (f : Frame) (time : Nat)
    (procOpen dtrOpen : Bool) : DetState :=
  let st1 := if procOpen then
      ⟨st.lastWarn, st.sentProc ++ [f], st.alerts, st.warnTimes⟩
    else st
  if dtrOpen then ⟨st1.lastWarn, st1.sentProc, st1.alerts + 1, st1.warnTimes⟩
  else if secs 10 < time - st1.lastWarn then
    ⟨time, st1.sentProc, st1.alerts, st1.warnTimes ++ [time]⟩
  else st1

/-- One full detector iteration: the cancellation check (`return` when set),
the `Err(_) => break` arm for `terminal`, nothing for `noMotion`, and
`detectorBody` for `motion`.  The second component is `true` when the loop
ends here. -/
def detectorStep1 (st : DetState) (i : DetIter) : DetState × Bool :=
  if i.term then (st, true)
  else
    match i.res with
    | .terminal => (st, true)
    | .noMotion => (st, false)
    | .motion f => (detectorBody st f i.time i.procOpen i.dtrOpen, false)

/-- The detector loop over a script of iterations. -/
def detectorRun : DetState → List DetIter → DetState
  | st, [] => st
  | st, i :: rest =>
    let p := detectorStep1 st i
    if p.2 then p.1 else detectorRun p.1 rest

/-- The frame forwarded by an iteration whose analysis result is `motion`. -/
def motionOf (i : DetIter) : Option Frame :=
  match i.res with
  | .motion f => some f
  | _ => none

/-! ## Recording stage (`writer_handle`, main.rs lines 309-322) -/

/-- One frame arriving on the recording channel, together with the outcome of
`writer.write` (a failure is only a warning). -/
structure WriteIter where
  frame : Frame
  writeOk : Bool
deriving DecidableEq, Repr

/-- The writer thread: one cancellation check before the loop (line 310),
then it drains the recording channel, attempting to write every frame
(failures are logged and the loop continues).  Returns the frames whose
write was attempted. -/
def writerRun (term0 : Bool) (l : List WriteIter) : List Frame :=
  if term0 then [] else l.map (fun i => i.frame)

/-! ## Streaming stage (`streamer_handle`, main.rs lines 326-406) -/

/-- The fixed HTTP response header (main.rs line 329). -/
def respHeader : Bytes :=
  "HTTP/1.1 200 OK\r\nContent-Type: multipart/x-mixed-replace; boundary=frame\r\n\r\n".data

/-- The per-frame part header (main.rs lines 355-358), with the
`Content-Length` value filled by the byte length of the encoded payload. -/
def partHeaderBytes (n : Nat) : Bytes :=
  ("--frame\r\nContent-Type: image/jpeg\r\nContent-Length: "
    ++ toString n ++ "\r\n\r\n").data

/-- The part terminator written after the payload (main.rs line 376). -/
def crlf : Bytes := "\r\n".data

/-- One iteration of the per-frame streaming loop: the cancellation value
observed at the top-of-iteration check (line 349), the received frame, and
whether each of the four I/O operations on the client socket (part-header
write, payload write, terminator write, flush) succeeds. -/
structure FrameIter where
  term : Bool
  frame : Frame
  partHeaderOk : Bool
  payloadOk : Bool
  terminatorOk : Bool
  flushOk : Bool
deriving DecidableEq, Repr

/-- Why the per-frame loop ended. -/
inductive StreamExit where
  | cancelled
  | clientLost
  | channelClosed
deriving DecidableEq, Repr

/-- Result of the per-frame loop: bytes actually written to the socket so
far, number of socket write/flush operations attempted so far, the value of
the streaming-active flag on leaving the loop, and the exit kind. -/
structure LoopOut where
  wire : Bytes
  attempts : Nat
  flag : Bool
  exitKind : StreamExit
deriving DecidableEq, Repr

/-- The per-frame streaming loop (main.rs lines 348-392).  On the
cancellation check the whole stage returns (flag untouched, hence still
true).  Each of the four socket operations is attempted in order; a failure
stores `false` into the streaming-active flag and `break`s, skipping the
remaining operations of this part and all later frames.  A failed
`write_all` delivers no bytes.  Encoding (`imencode`) is the pure codec:
the payload is `frame.jpeg` and `Content-Length` is its length. -/
def streamLoop : List FrameIter → Bytes → Nat → LoopOut
  | [], wire, att => ⟨wire, att, true, .channelClosed⟩
  | i :: rest, wire, att =>
    if i.term then ⟨wire, att, true, .cancelled⟩
    else
      if i.partHeaderOk then
        if i.payloadOk then
          if i.terminatorOk then
            if i.flushOk then
              streamLoop rest
                (wire ++ partHeaderBytes i.frame.jpeg.length
                  ++ i.frame.jpeg ++ crlf) (att + 4)
            else ⟨wire ++ partHeaderBytes i.frame.jpeg.length
                    ++ i.frame.jpeg ++ crlf, att + 4, false, .clientLost⟩
          else ⟨wire ++ partHeaderBytes i.frame.jpeg.length
                  ++ i.frame.jpeg, att + 3, false, .clientLost⟩
        else ⟨wire ++ partHeaderBytes i.frame.jpeg.length, att + 2,
                false, .clientLost⟩
      else ⟨wire, att + 1, false, .clientLost⟩

/-- What `listener.accept()` yields on one idle iteration: `pending`
(`WouldBlock`, sleep 100 ms), a connection (with the outcome of the header
write and the script of the per-frame loop that follows), or a fatal accept
error (`break`). -/
inductive AcceptRes where
  | pending
  | conn (headerOk : Bool) (frames : List FrameIter)
  | fatal
deriving DecidableEq, Repr

/-- One iteration of the streamer's outer (idle) loop: cancellation value at
the `while` guard, and the accept outcome. -/
structure IdleIter where
  term : Bool
  accept : AcceptRes
deriving DecidableEq, Repr

/-- Observable effects of one outer streamer iteration: bytes written,
socket operations attempted, milliseconds slept, and whether the whole
stage terminated during this iteration. -/
structure StepOut where
  wire : Bytes
  attempts : Nat
  sleptMs : Nat
  exited : Bool
deriving DecidableEq, Repr

/-- One outer iteration of the streamer (main.rs lines 331-402).  When the
guard observes cancellation, the loop exits with the flag untouched.
Otherwise the flag is stored `false`; a pending accept sleeps 100 ms; a
fatal accept error `break`s; an accepted connection stores the flag `true`,
attempts the HTTP header write (a failure is only logged — the stage still
enters the per-frame loop), then runs the per-frame loop.  No branch reads
the flag: the resulting flag value is computed from the iteration input
alone. -/
def streamerStep (sh : Shared) (i : IdleIter) : Shared × StepOut :=
  if i.term then (sh, ⟨[], 0, 0, true⟩)
  else
    match i.accept with
    | .pending => (⟨false⟩, ⟨[], 0, pollIntervalMs, false⟩)
    | .fatal => (⟨false⟩, ⟨[], 0, 0, true⟩)
    | .conn headerOk frames =>
      let startWire : Bytes := if headerOk then respHeader else []
      let lo := streamLoop frames startWire 1
      (⟨lo.flag⟩,
       ⟨lo.wire, lo.attempts, 0,
        match lo.exitKind with | .cancelled => true | _ => false⟩)

/-- Accumulated result of the streamer's outer loop. -/
structure RunOut where
  wire : Bytes
  sleptMs : Nat
  sh : Shared
deriving DecidableEq, Repr

/-- The streamer's outer loop over a script of idle iterations. -/
def streamerRun : List IdleIter → Shared → RunOut
  | [], sh => ⟨[], 0, sh⟩
  | i :: rest, sh =>
    let p := streamerStep sh i
    if p.2.exited then ⟨p.2.wire, p.2.sleptMs, p.1⟩
    else
      let r := streamerRun rest p.1
      ⟨p.2.wire ++ r.wire, p.2.sleptMs + r.sleptMs, r.sh⟩

/-! ## Alerting stage (`messenger_handle`, main.rs lines 410-434) -/

/-- One iteration of the messenger loop: cancellation value observed at the
top-of-iteration check (line 413), current wall-clock value, whether
`messenger.payload(..)` succeeds, and whether `messenger.send(..)`
succeeds. -/
structure MsgIter where
  term : Bool
  time : Nat
  payloadOk : Bool
  sendOk : Bool
deriving DecidableEq, Repr

/-- Messenger thread state: its captured copy of `message_last_sent` and the
times at which a notification send was attempted. -/
structure MsgState where
  lastSent : Nat
  sendAttempts : List Nat
deriving DecidableEq, Repr

/-- Outcome of one messenger iteration: continue the loop, halt the thread
with `Ok` (cancellation), or end the thread with `Err` (payload build
failure propagated by the postfix question-mark operator).  The state
carried by `fail` records that `message_last_sent` was already updated on
line 420, before the payload build on line 422. -/
inductive MsgStep where
  | cont (st : MsgState)
  | halt (st : MsgState)
  | fail (st : MsgState)
deriving DecidableEq, Repr

/-- One messenger iteration (main.rs lines 413-429): cancellation check;
then, only if more than 5 seconds have elapsed since `message_last_sent`,
update `message_last_sent`, build the payload (an error ends the thread
with `Err`), and attempt the send — the send's own result is only printed,
so the send is counted as attempted whether or not it succeeds. -/
def messengerStep1 (st : MsgState) (i : MsgIter) : MsgStep :=
  if i.term then .halt st
  else if secs 5 < i.time - st.lastSent then
    if i.payloadOk then .cont ⟨i.time, st.sendAttempts ++ [i.time]⟩
    else .fail ⟨i.time, st.sendAttempts⟩
  else .cont st

/-- The messenger loop over a script of iterations; `Except` mirrors the
thread's `io::Result`. -/
def messengerRun : MsgState → List MsgIter → Except String MsgState
  | st, [] => .ok st
  | st, i :: rest =>
    match messengerStep1 st i with
    | .cont st1 => messengerRun st1 rest
    | .halt st1 => .ok st1
    | .fail _ => .error "unable to build notification payload"

/-! ## Orchestrator (`run`, main.rs lines 436-443) -/

/-- The join sequence at the end of `run`: each thread's `io::Result` is
propagated in order by the postfix question-mark operator. -/
def joinStages (g d w s m : Except String Unit) : Except String Unit := do
  let _ ← g
  let _ ← d
  let _ ← w
  let _ ← s
  let _ ← m
  pure ()

/-- Forget the messenger's final state, keeping only its `io::Result`. -/
def msgUnit (r : Except String MsgState) : Except String Unit :=
  r.map (fun _ => ())

/-! ## Interleaved detector/messenger system (for the shared-variable claim)

The single variable `message_last_sent` (main.rs line 260) is captured by
the two `move` closures of the detector and the messenger threads.
`Duration` is `Copy`, so each closure captures an independent copy, both
starting at `Duration::from_secs(0)`; the embedding therefore gives each
thread its own timestamp field inside one combined state. -/

/-- Combined state of the two threads that mention `message_last_sent`. -/
structure SysState where
  dst : DetState
  mst : MsgState
deriving DecidableEq, Repr

/-- Initial combined state: both captured copies of `message_last_sent`
start at zero. -/
def sysInit : SysState := ⟨detInit, ⟨0, []⟩⟩

/-- One scheduler event: an iteration of the detector thread or of the
messenger thread. -/
inductive SysEvent where
  | det (i : DetIter)
  | msg (i : MsgIter)
deriving DecidableEq, Repr

/-- The messenger state after one iteration, whatever the iteration's
outcome (on `fail` the thread dies, but its timestamp had already been
updated on line 420). -/
def msgAfter (st : MsgState) (i : MsgIter) : MsgState :=
  match messengerStep1 st i with
  | .cont st1 => st1
  | .halt st1 => st1
  | .fail st1 => st1

/-- One interleaving step: a detector iteration rewrites only the detector
thread's state, a messenger iteration only the messenger thread's state. -/
def sysStep (s : SysState) (e : SysEvent) : SysState :=
  match e with
  | .det i => ⟨(detectorStep1 s.dst i).1, s.mst⟩
  | .msg i => ⟨s.dst, msgAfter s.mst i⟩

/-! ## Flag access by the non-streaming, non-capture stages

The bodies of the detector, writer and messenger threads (main.rs lines
261-304, 309-322, 410-434) contain no occurrence of `streaming_enabled`;
their embeddings therefore pass the shared cell through untouched and
compute their results from their own inputs alone. -/

/-- Detector iteration seen against the shared streaming-active cell. -/
def detectorStepSh (sh : Shared) (st : DetState) (i : DetIter) :
    Shared × (DetState × Bool) :=
  (sh, detectorStep1 st i)

/-- Writer iteration seen against the shared streaming-active cell. -/
def writerStepSh (sh : Shared) (i : WriteIter) : Shared × Frame :=
  (sh, i.frame)

/-- Messenger iteration seen against the shared streaming-active cell. -/
def messengerStepSh (sh : Shared) (st : MsgState) (i : MsgIter) :
    Shared × MsgStep :=
  (sh, messengerStep1 st i)

/-! ## Spec-side descriptions and concrete inputs -/

/-- A per-frame iteration on a healthy connection: no cancellation, all four
socket operations succeed. -/
def okFrame (f : Frame) : FrameIter := ⟨false, f, true, true, true, true⟩

/-- The spec's description of one well-formed multipart section: boundary
and content-type line, a `Content-Length` equal to the byte length of the
frame's encoded JPEG payload, the payload bytes, and the blank-line
terminator. -/
def mkSection (f : Frame) : Bytes :=
  partHeaderBytes f.jpeg.length ++ f.jpeg ++ crlf

/-- Concatenation of byte strings. -/
def bytesJoin : List Bytes → Bytes
  | [] => []
  | b :: r => b ++ bytesJoin r

/-- A concrete frame whose encoded payload is the two bytes `ab`. -/
def fA : Frame := ⟨0, "ab".data⟩

/-- A concrete frame whose encoded payload is the single byte `c`. -/
def fB : Frame := ⟨1, "c".data⟩

/-! ## Helper lemmas -/

/-- A suppressed run of messenger iterations: events whose time lies within
the cooldown of the current `message_last_sent` leave the state unchanged. -/
theorem messengerRun_suppressed (burst : List MsgIter) (t : Nat)
    (sends : List Nat) (tail : List MsgIter)
    (hb : ∀ b ∈ burst, b.term = false ∧ b.time - t < secs 5) :
    messengerRun ⟨t, sends⟩ (burst ++ tail) = messengerRun ⟨t, sends⟩ tail := by
  induction burst with
  | nil => rfl
  | cons b rest ih =>
    obtain ⟨hterm, htime⟩ := hb b (by simp)
    have hng : ¬ secs 5 < b.time - t := by omega
    simp only [List.cons_append, messengerRun, messengerStep1, hterm,
      if_false, hng, if_neg hng, Bool.false_eq_true]
    exact ih (fun x hx => hb x (by simp [hx]))

/-- The sent-frames effect of the detector's motion branch when the
recording channel is open. -/
theorem detectorBody_sentProc (st : DetState) (f : Frame) (t : Nat)
    (d : Bool) :
    (detectorBody st f t true d).sentProc = st.sentProc ++ [f] := by
  unfold detectorBody
  cases d <;> simp
  split <;> simp

/-- The warning fields of the detector's motion branch do not depend on the
recording-channel outcome, and evolve by the 10-second suppression rule. -/
theorem detectorBody_warnFields (st : DetState) (f : Frame) (t : Nat)
    (p d : Bool) :
    ((detectorBody st f t p d).warnTimes = st.warnTimes ∧
      (detectorBody st f t p d).lastWarn = st.lastWarn) ∨
    (d = false ∧ secs 10 < t - st.lastWarn ∧
      (detectorBody st f t p d).warnTimes = st.warnTimes ++ [t] ∧
      (detectorBody st f t p d).lastWarn = t) := by
  unfold detectorBody
  cases d <;> cases p <;> simp
  · by_cases hg : secs 10 < t - st.lastWarn
    · exact Or.inr ⟨hg, by simp [hg]⟩
    · exact Or.inl (by simp [hg])
  · by_cases hg : secs 10 < t - st.lastWarn
    · exact Or.inr ⟨hg, by simp [hg]⟩
    · exact Or.inl (by simp [hg])

/-- Generalized form of the detection-forwarding property. -/
theorem detectorRun_sentProc (l : List DetIter) :
    ∀ st : DetState,
      (∀ i ∈ l, i.term = false ∧ i.procOpen = true ∧ i.res ≠ .terminal) →
      (detectorRun st l).sentProc = st.sentProc ++ l.filterMap motionOf := by
  induction l with
  | nil => intro st _; simp [detectorRun]
  | cons i rest ih =>
    intro st h
    obtain ⟨hterm, hproc, hres⟩ := h i (List.mem_cons_self i rest)
    have hrest : ∀ x ∈ rest,
        x.term = false ∧ x.procOpen = true ∧ x.res ≠ .terminal :=
      fun x hx => h x (List.mem_cons_of_mem i hx)
    cases hr : i.res with
    | terminal => exact absurd hr hres
    | noMotion =>
      simp only [detectorRun, detectorStep1, hterm, Bool.false_eq_true,
        if_false, hr]
      rw [ih st hrest]
      simp [motionOf, hr]
    | motion f =>
      simp only [detectorRun, detectorStep1, hterm, Bool.false_eq_true,
        if_false, hr]
      rw [ih _ hrest, hproc, detectorBody_sentProc st f i.time i.dtrOpen]
      simp [motionOf, hr, List.append_assoc]

/-- On a healthy connection the per-frame loop writes exactly one
well-formed section per frame, in order, and ends only when the streaming
channel closes. -/
theorem streamLoop_ok (fs : List Frame) :
    ∀ (wire : Bytes) (att : Nat),
      streamLoop (fs.map okFrame) wire att =
        ⟨wire ++ bytesJoin (fs.map mkSection), att + 4 * fs.length, true,
          .channelClosed⟩ := by
  induction fs with
  | nil => intro wire att; simp [streamLoop, bytesJoin]
  | cons f rest ih =>
    intro wire att
    simp only [List.map_cons, streamLoop, okFrame, Bool.false_eq_true,
      if_false, if_true, bytesJoin]
    rw [ih]
    simp only [mkSection, List.append_assoc, List.length_cons]
    have harith : att + 4 + 4 * rest.length = att + 4 * (rest.length + 1) :=
      by omega
    rw [harith]

/-- The separation property of the warning timestamps is preserved by every
detector iteration. -/
theorem detectorRun_warn_invariant (l : List DetIter) :
    ∀ st : DetState,
      List.Chain' (fun a b => a + secs 10 < b) st.warnTimes →
      (∀ t ∈ st.warnTimes, t ≤ st.lastWarn) →
      List.Chain' (fun a b => a + secs 10 < b)
          (detectorRun st l).warnTimes ∧
        ∀ t ∈ (detectorRun st l).warnTimes,
          t ≤ (detectorRun st l).lastWarn := by
  induction l with
  | nil => intro st hc hb; exact ⟨hc, hb⟩
  | cons i rest ih =>
    intro st hc hb
    by_cases hterm : i.term = true
    · simpa [detectorRun, detectorStep1, hterm] using And.intro hc hb
    · simp only [Bool.not_eq_true] at hterm
      cases hr : i.res with
      | terminal =>
        simpa [detectorRun, detectorStep1, hterm, hr] using
          And.intro hc hb
      | noMotion =>
        simp only [detectorRun, detectorStep1, hterm, Bool.false_eq_true,
          if_false, hr]
        exact ih st hc hb
      | motion f =>
        simp only [detectorRun, detectorStep1, hterm, Bool.false_eq_true,
          if_false, hr]
        apply ih
        · rcases detectorBody_warnFields st f i.time i.procOpen i.dtrOpen
            with ⟨hw, _⟩ | ⟨_, hg, hw, _⟩
          · rw [hw]; exact hc
          · rw [hw, List.chain'_append]
            refine ⟨hc, List.chain'_singleton _, ?_⟩
            intro x hx y hy
            simp only [List.head?_cons, Option.mem_def, Option.some.injEq]
              at hy
            subst hy
            have hxm : x ∈ st.warnTimes :=
              List.mem_of_getLast?_eq_some hx
            have := hb x hxm
            omega
        · rcases detectorBody_warnFields st f i.time i.procOpen i.dtrOpen
            with ⟨hw, hl⟩ | ⟨_, hg, hw, hl⟩
          · rw [hw, hl]; exact hb
          · rw [hw, hl]
            intro t ht
            rcases List.mem_append.mp ht with ht' | ht'
            · have := hb t ht'
              omega
            · simp only [List.mem_singleton] at ht'
              omega

/-- Strictly 10-second-separated timestamps admit at most one element in
any closed window of length ten seconds. -/
theorem window_at_most_one (L : List Nat)
    (hc : List.Chain' (fun a b => a + secs 10 < b) L) (w : Nat) :
    (L.filter (fun t => decide (w ≤ t ∧ t ≤ w + secs 10))).length ≤ 1 := by
  have htr : IsTrans Nat (fun a b => a + secs 10 < b) :=
    ⟨fun a b c hab hbc => by omega⟩
  have hp : (L.filter
      (fun t => decide (w ≤ t ∧ t ≤ w + secs 10))).Pairwise
        (fun a b => a + secs 10 < b) :=
    List.Pairwise.sublist (List.filter_sublist L)
      (List.chain'_iff_pairwise.mp hc)
  rcases hL : L.filter (fun t => decide (w ≤ t ∧ t ≤ w + secs 10)) with
    _ | ⟨a, _ | ⟨b, tl⟩⟩
  · simp
  · simp
  · exfalso
    rw [hL] at hp
    have hab : a + secs 10 < b := (List.pairwise_cons.mp hp).1 b (by simp)
    have haf : a ∈ L.filter (fun t => decide (w ≤ t ∧ t ≤ w + secs 10)) :=
      by rw [hL]; simp
    have hbf : b ∈ L.filter (fun t => decide (w ≤ t ∧ t ≤ w + secs 10)) :=
      by rw [hL]; simp
    have ha := of_decide_eq_true (List.mem_filter.mp haf).2
    have hbw := of_decide_eq_true (List.mem_filter.mp hbf).2
    omega

/-! ## Claims -/

/-- C1, counterexample.  The claim says a failed streaming-channel send is
non-fatal to the capture stage and frames continue to be acquired and sent
to the detection channel.  Concretely: the flag is true and the streaming
send of frame `fA` fails at the first iteration while everything else is
healthy; the claim then requires the second frame `fB` to still be sent to
the detection channel, but `grabber_handle` executes `break` (main.rs line
249), so the run ends with only `fA` delivered and `fB` is never sent. -/
theorem C1_stream_failure_cex :
    grabberRun [⟨false, some fA, true, true, false⟩,
        ⟨false, some fB, true, true, true⟩] = ([fA], []) ∧
      fB ∉ (grabberRun [⟨false, some fA, true, true, false⟩,
        ⟨false, some fB, true, true, true⟩]).1 := by
  decide

/-- C1, amended: when the streaming-active flag is loaded as true and the
send of the cloned frame to the streaming channel fails, the capture stage
does not log and continue — it breaks out of its loop immediately (the same
treatment as a detection-channel send failure), so no later iteration runs
and no further frame is sent to the detection channel. -/
theorem C1_capture_stops_on_streaming_send_failure
    (f : Frame) (i : GrabIter) (rest : List GrabIter)
    (h1 : i.term = false) (h2 : i.grabResult = some f)
    (h3 : i.rawOpen = true) (h4 : i.flag = true)
    (h5 : i.streamOpen = false) :
    grabberRun (i :: rest) = ([f], []) := by
  simp [grabberRun, grabberStep, h1, h2, h3, h4, h5]

/-- C1, witness for the amended theorem at a concrete input. -/
theorem C1_capture_stops_witness :
    grabberRun [⟨false, some fB, true, true, false⟩,
      ⟨false, some fA, true, true, true⟩] = ([fB], []) :=
  C1_capture_stops_on_streaming_send_failure fB
    ⟨false, some fB, true, true, false⟩ [⟨false, some fA, true, true, true⟩]
    rfl rfl rfl rfl rfl

/-- C2, counterexample.  The claim says every write failure on the client
connection — including the initial HTTP response-header write — immediately
sets the streaming-active flag false, returns the stage to Idle, and is
followed by no further write attempt.  Concretely: the header write fails
on an accepted connection and one frame then arrives; the claim requires a
total of 1 socket operation (the failed header write) and a false flag, but
`streamer_handle` only logs the header-write error (main.rs line 344) and
proceeds into the per-frame loop, attempting 4 more socket operations and
leaving the flag true. -/
theorem C2_header_write_failure_cex :
    (streamerStep ⟨false⟩
        ⟨false, .conn false [⟨false, fA, true, true, true, true⟩]⟩).2.attempts
        = 5 ∧
      (streamerStep ⟨false⟩
        ⟨false, .conn false [⟨false, fA, true, true, true, true⟩]⟩).1
        = ⟨true⟩ := by
  decide

/-- C2, amended: every write or flush failure inside the per-frame
streaming loop immediately stores false into the streaming-active flag and
breaks back to Idle, and after such an in-loop failure no further frame is
processed and no further write is attempted on that connection; a failure
of the initial HTTP response-header write, however, is only logged — the
stage still enters the per-frame loop on the same connection. -/
theorem C2_frame_loop_failure_aborts
    (i : FrameIter) (rest : List FrameIter) (wire : Bytes) (att : Nat)
    (hterm : i.term = false)
    (hfail : ¬(i.partHeaderOk = true ∧ i.payloadOk = true ∧
      i.terminatorOk = true ∧ i.flushOk = true)) :
    streamLoop (i :: rest) wire att = streamLoop [i] wire att ∧
      (streamLoop (i :: rest) wire att).flag = false ∧
      (streamLoop (i :: rest) wire att).exitKind = .clientLost := by
  cases hp : i.partHeaderOk <;> cases hq : i.payloadOk <;>
    cases hr : i.terminatorOk <;> cases hs : i.flushOk <;>
    simp_all [streamLoop]

/-- C2, witness for the amended theorem at a concrete input: the payload
write of the first frame fails, so the second frame is never attempted. -/
theorem C2_frame_loop_failure_witness :
    streamLoop [⟨false, fA, true, false, true, true⟩,
        ⟨false, fB, true, true, true, true⟩] [] 1 =
      streamLoop [⟨false, fA, true, false, true, true⟩] [] 1 ∧
      (streamLoop [⟨false, fA, true, false, true, true⟩,
        ⟨false, fB, true, true, true, true⟩] [] 1).flag = false ∧
      (streamLoop [⟨false, fA, true, false, true, true⟩,
        ⟨false, fB, true, true, true, true⟩] [] 1).exitKind = .clientLost :=
  C2_frame_loop_failure_aborts ⟨false, fA, true, false, true, true⟩
    [⟨false, fB, true, true, true, true⟩] [] 1 rfl (by decide)

/-- C3: a burst of K ≥ 1 motion events whose first event lies past the
5-second cooldown of the previous notification and whose remaining events
fall within the cooldown window measured from the (updated) last-sent
timestamp produces exactly one send attempt, at the first event's time; the
last-sent timestamp is updated to that time whatever the send outcome (the
`sendOk` fields are unconstrained); a further event arriving after the
cooldown has elapsed triggers exactly one more attempt. -/
theorem C3_cooldown_burst
    (ls : Nat) (sends : List Nat) (e : MsgIter) (burst : List MsgIter)
    (e' : MsgIter)
    (h1 : e.term = false) (h2 : e.payloadOk = true)
    (h3 : secs 5 < e.time - ls)
    (hb : ∀ b ∈ burst, b.term = false ∧ b.time - e.time < secs 5)
    (h4 : e'.term = false) (h5 : e'.payloadOk = true)
    (h6 : secs 5 < e'.time - e.time) :
    messengerRun ⟨ls, sends⟩ (e :: (burst ++ [e']))
      = .ok ⟨e'.time, sends ++ [e.time, e'.time]⟩ := by
  have hstep : messengerRun ⟨ls, sends⟩ (e :: (burst ++ [e']))
      = messengerRun ⟨e.time, sends ++ [e.time]⟩ (burst ++ [e']) := by
    simp [messengerRun, messengerStep1, h1, h2, h3]
  rw [hstep, messengerRun_suppressed burst e.time (sends ++ [e.time]) [e'] hb]
  simp [messengerRun, messengerStep1, h4, h5, h6]

/-- C3, witness: previous send at time 0; a burst at 6, 7 and 8 seconds
(the first with a failing send, the later two with failing payload/send
fields that are never consulted) yields one attempt at 6 s, and a fourth
event at 12 s — more than 5 s after the updated timestamp — yields exactly
one more. -/
theorem C3_cooldown_burst_witness :
    messengerRun ⟨0, []⟩ [⟨false, 6000, true, false⟩,
        ⟨false, 7000, true, true⟩, ⟨false, 8000, false, false⟩,
        ⟨false, 12000, true, true⟩]
      = .ok ⟨12000, [6000, 12000]⟩ :=
  C3_cooldown_burst 0 [] ⟨false, 6000, true, false⟩
    [⟨false, 7000, true, true⟩, ⟨false, 8000, false, false⟩]
    ⟨false, 12000, true, true⟩ rfl rfl (by decide) (by decide) rfl rfl
    (by decide)

/-- C4: with the recording channel open, the cancellation signal observed
unset at every iteration and no terminal analysis result, the frames the
detection stage sends to the recording channel are exactly the frames
returned as Motion results, one per Motion result and in the order the
frames were received. -/
theorem C4_detection_forwards_motion_frames
    (l : List DetIter)
    (h : ∀ i ∈ l, i.term = false ∧ i.procOpen = true ∧
      i.res ≠ .terminal) :
    (detectorRun detInit l).sentProc = l.filterMap motionOf := by
  have := detectorRun_sentProc l detInit h
  simpa [detInit] using this

/-- C4, witness: three frames, of which the first and third carry motion
(the second alert send even fails), forward exactly the two motion frames
in order. -/
theorem C4_detection_forwards_witness :
    (detectorRun detInit [⟨false, .motion fA, 11000, true, true⟩,
        ⟨false, .noMotion, 12000, true, false⟩,
        ⟨false, .motion fB, 13000, true, false⟩]).sentProc = [fA, fB] :=
  C4_detection_forwards_motion_frames
    [⟨false, .motion fA, 11000, true, true⟩,
      ⟨false, .noMotion, 12000, true, false⟩,
      ⟨false, .motion fB, 13000, true, false⟩] (by decide)

/-- C5: on an accepted connection whose writes all succeed, the bytes
written are exactly the single fixed HTTP header followed by one
well-formed multipart section per frame received from the streaming
channel, in order — each section being the boundary and image/jpeg
content-type line, a Content-Length equal to the byte length of that
frame's encoded JPEG payload, the payload bytes and the blank-line
terminator — with one header-write plus four socket operations per frame. -/
theorem C5_streaming_protocol (fs : List Frame) :
    (streamerStep ⟨false⟩ ⟨false, .conn true (fs.map okFrame)⟩).2.wire
        = respHeader ++ bytesJoin (fs.map mkSection) ∧
      (streamerStep ⟨false⟩ ⟨false, .conn true (fs.map okFrame)⟩).2.attempts
        = 1 + 4 * fs.length := by
  simp [streamerStep, streamLoop_ok]

/-- C6: in every detector run (starting from the captured zero timestamp),
consecutive alerting-send-failure warnings are separated by strictly more
than 10 seconds — a warning is printed only when more than 10 seconds have
elapsed since the previous one — and consequently every closed 10-second
window contains at most one such warning. -/
theorem C6_alert_warning_rate_limited (l : List DetIter) :
    List.Chain' (fun a b => a + secs 10 < b)
        (detectorRun detInit l).warnTimes ∧
      ∀ w, ((detectorRun detInit l).warnTimes.filter
        (fun t => decide (w ≤ t ∧ t ≤ w + secs 10))).length ≤ 1 := by
  have h := detectorRun_warn_invariant l detInit
    (by simp [detInit]) (by simp [detInit])
  exact ⟨h.1, fun w => window_at_most_one _ h.1 w⟩

/-- C7: each stage terminates as soon as it observes the cancellation
signal at its check point, executing no further loop iteration: the
grabber's while guard, the detector's and the messenger's top-of-iteration
checks, the writer's pre-loop check, the streamer's outer while guard and
its per-frame check all return immediately; moreover no idle sleep occurs
at or after the observing iteration, and every outer streamer iteration
sleeps at most the 100 ms poll interval, which bounds how long the idle
loop can run past a setting of the signal. -/
theorem C7_cancellation_prompt
    (gi : GrabIter) (grest : List GrabIter)
    (dst : DetState) (di : DetIter) (drest : List DetIter)
    (wl : List WriteIter)
    (sh : Shared) (si : IdleIter) (srest : List IdleIter)
    (fi : FrameIter) (frest : List FrameIter) (wire : Bytes) (att : Nat)
    (mst : MsgState) (mi : MsgIter) (mrest : List MsgIter)
    (hg : gi.term = true) (hd : di.term = true) (hs : si.term = true)
    (hf : fi.term = true) (hm : mi.term = true) :
    grabberRun (gi :: grest) = ([], []) ∧
      detectorRun dst (di :: drest) = dst ∧
      writerRun true wl = [] ∧
      streamerRun (si :: srest) sh = ⟨[], 0, sh⟩ ∧
      streamLoop (fi :: frest) wire att = ⟨wire, att, true, .cancelled⟩ ∧
      messengerRun mst (mi :: mrest) = .ok mst ∧
      ∀ (sh' : Shared) (i' : IdleIter),
        (streamerStep sh' i').2.sleptMs ≤ pollIntervalMs := by
  refine ⟨by simp [grabberRun, hg],
    by simp [detectorRun, detectorStep1, hd],
    by simp [writerRun],
    by simp [streamerRun, streamerStep, hs],
    by simp [streamLoop, hf],
    by simp [messengerRun, messengerStep1, hm],
    ?_⟩
  intro sh' i'
  obtain ⟨t, acc⟩ := i'
  cases t
  · cases acc <;> simp [streamerStep]
  · simp [streamerStep]

/-- C7, witness at concrete inputs: each stage's run with the signal
observed set terminates immediately. -/
theorem C7_cancellation_witness :
    grabberRun [⟨true, some fA, false, true, true⟩] = ([], []) ∧
      detectorRun detInit [⟨true, .noMotion, 0, true, true⟩] = detInit ∧
      writerRun true [⟨fA, true⟩] = [] ∧
      streamerRun [⟨true, .pending⟩] ⟨false⟩ = ⟨[], 0, ⟨false⟩⟩ ∧
      streamLoop [⟨true, fA, true, true, true, true⟩] [] 1
        = ⟨[], 1, true, .cancelled⟩ ∧
      messengerRun ⟨0, []⟩ [⟨true, 9000, true, true⟩] = .ok ⟨0, []⟩ :=
  have h := C7_cancellation_prompt ⟨true, some fA, false, true, true⟩ []
    detInit ⟨true, .noMotion, 0, true, true⟩ [] [⟨fA, true⟩] ⟨false⟩
    ⟨true, .pending⟩ [] ⟨true, fA, true, true, true, true⟩ [] [] 1
    ⟨0, []⟩ ⟨true, 9000, true, true⟩ [] rfl rfl rfl rfl rfl
  ⟨h.1, h.2.1, h.2.2.1, h.2.2.2.1, h.2.2.2.2.1, h.2.2.2.2.2.1⟩

/-- C8: the streaming-active flag has exactly one writer and one reader.
The streamer never loads the flag: on any non-exiting iteration its entire
result is independent of the cell's current value, and it does store the
flag (false on an idle poll).  The capture stage never stores the flag (the
cell passes through every iteration unchanged) and does load it for the
duplication decision (with the flag true the clone of `fA` is sent to the
streaming channel, with it false it is not).  The detector, writer and
messenger iterations neither store the flag nor depend on its value. -/
theorem C8_flag_single_writer_single_reader
    (b b' : Bool) (i : IdleIter) (hi : i.term = false) :
    streamerStep ⟨b⟩ i = streamerStep ⟨b'⟩ i ∧
      (streamerStep ⟨true⟩ ⟨false, .pending⟩).1 = ⟨false⟩ ∧
      (∀ (sh : Shared) (g : GrabIter), (grabberStep sh g).1 = sh) ∧
      (grabberStep ⟨true⟩ ⟨false, some fA, true, true, true⟩).2.streamSent
        = some fA ∧
      (grabberStep ⟨false⟩ ⟨false, some fA, true, true, true⟩).2.streamSent
        = none ∧
      (∀ (sh : Shared) (st : DetState) (d : DetIter),
        (detectorStepSh sh st d).1 = sh) ∧
      (∀ (c c' : Bool) (st : DetState) (d : DetIter),
        (detectorStepSh ⟨c⟩ st d).2 = (detectorStepSh ⟨c'⟩ st d).2) ∧
      (∀ (sh : Shared) (wIt : WriteIter), (writerStepSh sh wIt).1 = sh) ∧
      (∀ (c c' : Bool) (wIt : WriteIter),
        (writerStepSh ⟨c⟩ wIt).2 = (writerStepSh ⟨c'⟩ wIt).2) ∧
      (∀ (sh : Shared) (st : MsgState) (m : MsgIter),
        (messengerStepSh sh st m).1 = sh) ∧
      (∀ (c c' : Bool) (st : MsgState) (m : MsgIter),
        (messengerStepSh ⟨c⟩ st m).2 = (messengerStepSh ⟨c'⟩ st m).2) := by
  refine ⟨?_, rfl, ?_, by decide, by decide,
    fun _ _ _ => rfl, fun _ _ _ _ => rfl, fun _ _ => rfl,
    fun _ _ _ => rfl, fun _ _ _ => rfl, fun _ _ _ _ => rfl⟩
  · cases i.accept <;> simp [streamerStep, hi]
  · intro sh g
    obtain ⟨shf⟩ := sh
    obtain ⟨t, gr, fl, ro, so⟩ := g
    cases gr <;> cases shf <;> cases ro <;> cases so <;> rfl

/-- C8, witness: the streamer's idle iteration gives the same result
whatever value currently sits in the flag cell. -/
theorem C8_flag_witness :
    streamerStep ⟨true⟩ ⟨false, .pending⟩
      = streamerStep ⟨false⟩ ⟨false, .pending⟩ :=
  (C8_flag_single_writer_single_reader true false ⟨false, .pending⟩ rfl).1

/-- C9: the detector's 10-second warning-suppression timer and the
messenger's 5-second cooldown timer are independent.  Both threads capture
the single `message_last_sent` variable by `move`, and `Duration` is
`Copy`, so each thread owns its own copy, both starting at zero; in the
combined-state embedding a detector iteration never changes the messenger's
timestamp, a messenger iteration never changes the detector's, and the two
kinds of step commute. -/
theorem C9_timer_independence :
    (∀ (s : SysState) (i : DetIter), (sysStep s (.det i)).mst = s.mst) ∧
      (∀ (s : SysState) (i : MsgIter), (sysStep s (.msg i)).dst = s.dst) ∧
      (∀ (s : SysState) (di : DetIter) (mi : MsgIter),
        sysStep (sysStep s (.det di)) (.msg mi)
          = sysStep (sysStep s (.msg mi)) (.det di)) ∧
      sysInit.dst.lastWarn = 0 ∧ sysInit.mst.lastSent = 0 :=
  ⟨fun _ _ => rfl, fun _ _ => rfl, fun _ _ _ => rfl, rfl, rfl⟩

/-- C10: a payload-build failure on a triggering motion event ends the
messenger thread with `Err`, which the orchestrator's join sequence
propagates, so the whole run returns an error; a send failure, by contrast,
is only printed and the loop continues with the timestamp and the attempt
recorded (the `sendOk` field of `j` is unconstrained). -/
theorem C10_payload_failure_fatal
    (st : MsgState) (i j : MsgIter) (rest : List MsgIter)
    (hi1 : i.term = false) (hi2 : secs 5 < i.time - st.lastSent)
    (hi3 : i.payloadOk = false)
    (hj1 : j.term = false) (hj2 : secs 5 < j.time - st.lastSent)
    (hj3 : j.payloadOk = true) :
    messengerRun st (i :: rest)
        = .error "unable to build notification payload" ∧
      joinStages (.ok ()) (.ok ()) (.ok ()) (.ok ())
        (msgUnit (messengerRun st (i :: rest)))
        = .error "unable to build notification payload" ∧
      messengerRun st (j :: rest)
        = messengerRun ⟨j.time, st.sendAttempts ++ [j.time]⟩ rest := by
  have herr : messengerRun st (i :: rest)
      = .error "unable to build notification payload" := by
    simp [messengerRun, messengerStep1, hi1, hi2, hi3]
  refine ⟨herr, ?_, ?_⟩
  · rw [herr]; rfl
  · simp [messengerRun, messengerStep1, hj1, hj2, hj3]

/-- C10, witness: with the previous send at time 0, a payload-build failure
at 6 s ends the thread and the run with an error, while a send failure at
7 s leaves the loop running with the attempt recorded. -/
theorem C10_payload_failure_witness :
    messengerRun ⟨0, []⟩ [⟨false, 6000, false, true⟩]
        = .error "unable to build notification payload" ∧
      joinStages (.ok ()) (.ok ()) (.ok ()) (.ok ())
        (msgUnit (messengerRun ⟨0, []⟩ [⟨false, 6000, false, true⟩]))
        = .error "unable to build notification payload" ∧
      messengerRun ⟨0, []⟩ [⟨false, 7000, true, false⟩]
        = messengerRun ⟨7000, [7000]⟩ [] :=
  C10_payload_failure_fatal ⟨0, []⟩ ⟨false, 6000, false, true⟩
    ⟨false, 7000, true, false⟩ [] rfl (by decide) rfl rfl (by decide) rfl

end Rustymode
